import Mathlib

/-!
Verification of the Autonomous Fleet Simulator against its specification.

The repository ships the React visualization client (FleetGrid, EnvironmentGrid,
RobotSidebar, ControlPanel, JobManager, ManagementDashboard); those components are
embedded here directly from their JavaScript source.  The backend engine
(FleetScheduler, PathPlanner, JobController) is not part of the available sources,
so its operations are modelled from the specification text, each such definition
marked "Modelled from the spec:".
-/

/-! ## Frontend robot records (as delivered by `GET /robots` and consumed by the React components) -/

/-- A robot record as the frontend components see it: the JS object has a free-form
`status` string and a numeric `battery`.  Fields not used by the embedded logic
(`x`, `y`) are kept for the reset/position claims. -/
structure RobotView where
  id : Nat
  status : String
  battery : Int
  x : Int := 0
  y : Int := 0
deriving DecidableEq

/-- ManagementDashboard.jsx, `availableRobots` filter (part_000 lines 114-117):
`robots.filter(r => r.status === 'idle' || (r.status !== 'error' && r.battery > 20))`. -/
def availPred (r : RobotView) : Bool :=
  r.status == "idle" || (r.status != "error" && decide (r.battery > 20))

/-- ManagementDashboard.jsx `availableRobots`: the robots offered in the
"Assign New Task" dropdown. -/
def availableRobots (rs : List RobotView) : List RobotView :=
  rs.filter availPred

/-- Modelled from the spec: "Eligible robot: a robot qualified for new task assignment
(not dead/error/busy/critically low battery)"; operationally (§4.4) "`idle` or already
`returning`-but-not-yet-below-critical-battery, battery above the low threshold,
not `dead`/`error`".  Over the status alphabet
{idle, moving, charging, delivering, returning, error, dead}, being idle or returning
is exactly being neither dead, nor in error, nor busy with an active task. -/
def specEligible (r : RobotView) : Bool :=
  (r.status == "idle" || r.status == "returning") && decide (r.battery > 20)

/-! ## FleetGrid status colours (FleetGrid.jsx lines 4-11 and 48-50) -/

/-- FleetGrid.jsx `STATUS_COLORS` object, lines 4-11. -/
def STATUS_COLORS : List (String × String) :=
  [("moving", "#10b981"), ("idle", "#3b82f6"), ("charging", "#f59e0b"),
   ("delivering", "#8b5cf6"), ("returning", "#06b6d4"), ("error", "#ef4444")]

/-- FleetGrid.jsx line 49: `STATUS_COLORS[robot.status] || STATUS_COLORS.error`.
Every colour string is non-empty (truthy), so the JS `||` falls through exactly
when the key is absent, yielding `STATUS_COLORS.error = '#ef4444'`. -/
def robotColor (status : String) : String :=
  match STATUS_COLORS.lookup status with
  | some c => c
  | none => "#ef4444"

/-! ## EnvironmentGrid cell lookup (EnvironmentGrid.jsx, `getCellType`) -/

/-- Cell classification used by the environment grid. -/
inductive CellType
  | empty
  | obstacle
  | chargingStation
  | deliveryZone
  | pickupZone
  | startingStation
deriving DecidableEq

/-- Result of evaluating the JS expression `getCellType(x, y)`: a proper cell-type
value, the JS value `undefined` (a negative `x` index into an existing row), or a
thrown `TypeError` (accessing `.length` of `grid[y]` when `y` is negative). -/
inductive JsCell
  | crash
  | undef
  | val (c : CellType)
deriving DecidableEq

/-- EnvironmentGrid.jsx `getCellType` (README.md concatenation, lines 237-242):
`if (!grid || y >= grid.length || x >= grid[y].length) return 'empty'; return grid[y][x];`.
The guards are evaluated left to right with JS short-circuiting; for negative `y`
the access `grid[y].length` throws, and for negative `x` within a valid row the
indexing returns `undefined`. -/
def getCellType (grid : Option (List (List CellType))) (x y : Int) : JsCell :=
  match grid with
  | none => .val .empty
  | some g =>
    if (g.length : Int) ≤ y then .val .empty
    else if y < 0 then .crash
    else
      let row := g.getD y.toNat []
      if (row.length : Int) ≤ x then .val .empty
      else if x < 0 then .undef
      else .val (row.getD x.toNat .empty)

/-! ## ControlPanel configuration handlers (ControlPanel.jsx lines 8-20) -/

/-- ControlPanel.jsx `handleGridSizeChange`: `const newSize = parseInt(...); if
(newSize >= 10 && newSize <= 30) setGridSize(newSize)`.  A non-numeric input parses
to NaN (modelled as `none`), whose comparisons are false, so the state is kept. -/
def handleGridSizeChange (parsed : Option Int) (gridSize : Int) : Int :=
  match parsed with
  | none => gridSize
  | some v => if 10 ≤ v ∧ v ≤ 30 then v else gridSize

/-- ControlPanel.jsx `handleIntervalChange`: update only when the parsed value lies
in [500, 10000]. -/
def handleIntervalChange (parsed : Option Int) (updateInterval : Int) : Int :=
  match parsed with
  | none => updateInterval
  | some v => if 500 ≤ v ∧ v ≤ 10000 then v else updateInterval

/-- A change event on one of the two ControlPanel sliders, carrying the result of
`parseInt` on the raw input (`none` for NaN). -/
inductive PanelEvent
  | gridInput (parsed : Option Int)
  | intervalInput (parsed : Option Int)

/-- The two configuration values held in App state. -/
structure PanelState where
  gridSize : Int
  updateInterval : Int
deriving DecidableEq

/-- One ControlPanel change event applied to the App state. -/
def panelStep (s : PanelState) (e : PanelEvent) : PanelState :=
  match e with
  | .gridInput p => { s with gridSize := handleGridSizeChange p s.gridSize }
  | .intervalInput p => { s with updateInterval := handleIntervalChange p s.updateInterval }

/-- A whole sequence of ControlPanel change events. -/
def panelRun (s : PanelState) (es : List PanelEvent) : PanelState :=
  es.foldl panelStep s

/-! ## JobManager UI logic (JobManager.jsx) -/

/-- JobManager.jsx line 180: the cancel (trash) button is rendered only under
`job.status === 'pending' && onDeleteJob`. -/
def uiOffersCancel (status : String) : Bool :=
  status == "pending"

/-- A continuous-mode request issued by the frontend. -/
inductive ContinuousRequest
  | startReq (maxJobs intervalSeconds : Nat)
  | stopReq
deriving DecidableEq

/-- The continuous status as the frontend holds it. -/
structure ContinuousStatusView where
  enabled : Bool
  maxJobs : Nat
  intervalSeconds : Nat
deriving DecidableEq

/-- JobManager.jsx `handleToggleContinuous` (lines 75-85): issue a stop request when
currently enabled, otherwise a start request with the configured parameters. -/
def handleToggleContinuous (st : ContinuousStatusView) (cfgMax cfgInterval : Nat) :
    ContinuousRequest :=
  if st.enabled then .stopReq else .startReq cfgMax cfgInterval

/-- JobManager.jsx lines 224-251: both continuous-settings inputs carry
`disabled={continuousStatus.enabled}`. -/
def continuousInputsDisabled (st : ContinuousStatusView) : Bool :=
  st.enabled

/-- JobManager.jsx `handleAddJob` bounds check (lines 58-64): after parsing, the
request is issued only when `0 ≤ x < gridSize` and `0 ≤ y < gridSize`; otherwise an
alert is shown and no request leaves the client (`none`). -/
def frontendAddJob (gridSize px py : Int) (priority : Nat) : Option (Int × Int × Nat) :=
  if px < 0 ∨ gridSize ≤ px ∨ py < 0 ∨ gridSize ≤ py then none
  else some (px, py, priority)

/-! ## Backend data model, modelled from the specification (the engine sources are
not part of the repository snapshot; §2-§4 of the spec are the authority). -/

/-- Modelled from the spec: GridEnvironment (§3) — width/height and the derived zone
lists (obstacles, charging stations, pickup zones, delivery zones). -/
structure GridEnv where
  width : Nat
  height : Nat
  obstacles : List (Nat × Nat)
  chargingStations : List (Nat × Nat)
  pickupZones : List (Nat × Nat)
  deliveryZones : List (Nat × Nat)
deriving DecidableEq

/-- Modelled from the spec: a cell is within the `width × height` grid. -/
def inBounds (env : GridEnv) (p : Nat × Nat) : Bool :=
  p.1 < env.width && p.2 < env.height

/-- Modelled from the spec: `isPassable(x,y)` (§4.1) — in bounds and not an obstacle. -/
def isPassable (env : GridEnv) (p : Nat × Nat) : Bool :=
  inBounds env p && !(env.obstacles.contains p)

/-- The 4-connected neighbours of a cell (coordinates are naturals, so the
decrement directions exist only away from the border). -/
def neighbors (p : Nat × Nat) : List (Nat × Nat) :=
  [(p.1 + 1, p.2), (p.1, p.2 + 1)]
    ++ (if 0 < p.1 then [(p.1 - 1, p.2)] else [])
    ++ (if 0 < p.2 then [(p.1, p.2 - 1)] else [])

/-- Modelled from the spec: breadth-first search worker for PathPlanner (§4.2).
The queue holds frontier cells with their reversed path from the start; a cell is
enqueued at most once (it must be absent from both the visited list and the
queue), so `width*height + 1` dequeues of fuel are enough to exhaust any grid. -/
def bfsAux (env : GridEnv) (goal : Nat × Nat) :
    Nat → List ((Nat × Nat) × List (Nat × Nat)) → List (Nat × Nat) →
    Option (List (Nat × Nat))
  | 0, _, _ => none
  | _, [], _ => none
  | fuel + 1, (p, revPath) :: rest, visited =>
    if p = goal then some revPath.reverse
    else
      let fresh := (neighbors p).filter fun q =>
        isPassable env q && !(visited.contains q) && !(rest.any fun e => e.1 == q)
      bfsAux env goal fuel (rest ++ fresh.map fun q => (q, q :: revPath)) (p :: visited)

/-- Modelled from the spec: `findPath(from, to, environment)` (§4.2) — a
minimal-length 4-connected obstacle-avoiding route (BFS layer order realises the
deterministic tie-break), or `none` (= `NoPathFound`) when the target is out of
bounds, an obstacle, or unreachable.  The returned sequence excludes the start
cell and ends at the target. -/
def findPath (env : GridEnv) (start goal : Nat × Nat) : Option (List (Nat × Nat)) :=
  if !isPassable env start || !isPassable env goal then none
  else bfsAux env goal (env.width * env.height + 1) [(start, [])] []

/-- Modelled from the spec: path length to a cell (number of steps), `none` when
unreachable. -/
def bfsDist (env : GridEnv) (start goal : Nat × Nat) : Option Nat :=
  (findPath env start goal).map List.length

/-- Distance ordered with unreachable as `⊤`, for nearest-zone selection. -/
def distTop (o : Option Nat) : WithTop Nat :=
  match o with
  | none => ⊤
  | some n => (n : WithTop Nat)

/-- Modelled from the spec: the nearest cell of `zones` from `start` by path length
(§4.4/§4.6), ties broken by list order via `List.argmin`; `none` iff `zones = []`. -/
def nearestZone (env : GridEnv) (start : Nat × Nat) (zones : List (Nat × Nat)) :
    Option (Nat × Nat) :=
  zones.argmin fun z => distTop (bfsDist env start z)

/-! ## Backend robot state machine, modelled from the spec (§3, §4.3, §4.5) -/

/-- Robot status alphabet (§3). -/
inductive RStatus
  | idle
  | moving
  | charging
  | delivering
  | returning
  | error
  | dead
deriving DecidableEq

/-- Task types (§3). -/
inductive TaskKind
  | pickup
  | dropoff
  | charge
  | move
  | patrol
deriving DecidableEq

/-- Modelled from the spec: Robot (§3) — position, battery in [0,100], status,
current task, remaining path consumed front-to-back. -/
structure BRobot where
  id : Nat
  pos : Nat × Nat
  battery : Nat
  status : RStatus
  path : List (Nat × Nat)
  currentTask : Option TaskKind
deriving DecidableEq

/-- Modelled from the spec: the low-battery preemption threshold, inferred from UI
defaults as 20% (§9). -/
def lowBatteryThreshold : Nat := 20

/-- Modelled from the spec: the charge-target threshold, inferred from UI defaults
as 90% (§9). -/
def chargeTargetThreshold : Nat := 90

/-- Modelled from the spec: the fixed per-tick battery drain while
moving/delivering/returning (§4.3; the exact value is unspecified, a constant is
chosen). -/
def batteryDrainPerTick : Nat := 5

/-- Modelled from the spec: the fixed per-tick battery charge while charging (§4.3). -/
def batteryChargePerTick : Nat := 5

/-- Modelled from the spec: route to the nearest reachable charging station
(§4.3), empty when none exists. -/
def pathToNearestCharging (env : GridEnv) (start : Nat × Nat) : List (Nat × Nat) :=
  match nearestZone env start env.chargingStations with
  | none => []
  | some c => (findPath env start c).getD []

/-- Modelled from the spec: arrival transition on path exhaustion, by task type
(§4.3/§4.4): pickup → delivering, dropoff/move/patrol → idle, charge → charging;
a returning robot reaching its charging station starts charging. -/
def arrive (r : BRobot) : BRobot :=
  match r.currentTask with
  | some .pickup => { r with status := .delivering }
  | some .dropoff => { r with status := .idle, currentTask := none }
  | some .charge => { r with status := .charging }
  | some .move => { r with status := .idle, currentTask := none }
  | some .patrol => { r with status := .idle, currentTask := none }
  | none =>
    if r.status = .returning then { r with status := .charging }
    else { r with status := .idle }

/-- Modelled from the spec: one simulation tick for one robot (§4.3/§4.5).
Dead, idle and error robots are untouched.  A charging robot gains a fixed amount
(clamped at 100) and returns to idle once at the charge-target threshold.  A
moving/delivering robot below the low-battery threshold is preempted: its task is
dropped and it starts returning to the nearest charging station (a robot already
returning is not re-preempted, reading "not already charging" (§4.3) as not
already heading to charge).  Otherwise the robot advances one cell, drains a fixed
amount (clamped at 0), becomes dead exactly when the battery reaches 0, and on
path exhaustion takes the arrival transition. -/
def tickR (env : GridEnv) (r : BRobot) : BRobot :=
  match r.status with
  | .dead => r
  | .idle => r
  | .error => r
  | .charging =>
    let b := min 100 (r.battery + batteryChargePerTick)
    if chargeTargetThreshold ≤ b then
      { r with battery := b, status := .idle, currentTask := none }
    else { r with battery := b }
  | s =>
    if r.battery < lowBatteryThreshold ∧ s ≠ .returning then
      { r with status := .returning, currentTask := none,
               path := pathToNearestCharging env r.pos }
    else
      let pos' := r.path.headD r.pos
      let path' := r.path.tail
      let b := r.battery - batteryDrainPerTick
      if b = 0 then
        { r with pos := pos', path := path', battery := 0,
                 status := .dead, currentTask := none }
      else if path' = [] then
        arrive { r with pos := pos', path := [], battery := b }
      else { r with pos := pos', path := path', battery := b }

/-- Errors of `assignTask` (§4.4). -/
inductive AssignError
  | robotUnavailable
  | invalidTarget
  | targetUnreachable
deriving DecidableEq

/-- Modelled from the spec: the per-robot part of `assignTask` (§4.4) — fails with
`RobotUnavailable` if the robot is dead, in error, or already has an active task;
`InvalidTarget` if the target is out of bounds; `TargetUnreachable` if PathPlanner
finds no route; otherwise the robot gets the task and transitions to moving. -/
def assignToRobot (env : GridEnv) (r : BRobot) (k : TaskKind) (target : Nat × Nat) :
    Except AssignError BRobot :=
  if r.status = .dead ∨ r.status = .error ∨ r.currentTask.isSome then
    .error .robotUnavailable
  else if ¬ inBounds env target then .error .invalidTarget
  else
    match findPath env r.pos target with
    | none => .error .targetUnreachable
    | some p => .ok { r with status := .moving, currentTask := some k, path := p }

/-- Modelled from the spec: the legal robot positions — within bounds and not on an
obstacle cell (§3, §6 reset). -/
def legalCells (env : GridEnv) : List (Nat × Nat) :=
  (List.range env.width).flatMap fun x =>
    (List.range env.height).filterMap fun y =>
      if isPassable env (x, y) then some (x, y) else none

/-- Modelled from the spec: a robot created at fleet initialization or reset (§3):
a position chosen from the legal cells by the injectable random source `choice`,
battery 100, status idle, no task. -/
def initRobot (env : GridEnv) (rid choice : Nat) : BRobot :=
  { id := rid
    pos := (legalCells env).getD (choice % (legalCells env).length) (0, 0)
    battery := 100
    status := .idle
    path := []
    currentTask := none }

/-- Modelled from the spec: one scheduler-driven change to a single robot — a
simulation tick, or a successful task assignment (§4.4, §4.5). -/
inductive RStep (env : GridEnv) : BRobot → BRobot → Prop
  | tick (r : BRobot) : RStep env r (tickR env r)
  | assign (r r' : BRobot) (k : TaskKind) (target : Nat × Nat) :
      assignToRobot env r k target = .ok r' → RStep env r r'

/-- Modelled from the spec: the reachable per-robot states — created at
initialization or reset, then mutated only by the FleetScheduler through ticks
and assignments (§3). -/
inductive ReachableR (env : GridEnv) : BRobot → Prop
  | init (rid choice : Nat) : ReachableR env (initRobot env rid choice)
  | step (r r' : BRobot) : ReachableR env r → RStep env r r' → ReachableR env r'

/-! ## Backend job controller, modelled from the spec (§3, §4.6) -/

/-- Job/Task status alphabet (§3; jobs and tasks share it). -/
inductive JobStatus
  | pending
  | assigned
  | pickingUp
  | inTransit
  | droppingOff
  | completed
  | failed
  | cancelled
deriving DecidableEq

/-- Modelled from the spec: Job (§3) — pickup, auto-assigned delivery, priority,
status, optionally the assigned robot and the currently active task. -/
structure Job where
  id : Nat
  pickup : Nat × Nat
  delivery : Nat × Nat
  priority : Nat
  status : JobStatus
  assignedRobotId : Option Nat
  taskId : Option Nat
deriving DecidableEq

/-- Modelled from the spec: Task (§3) — owned by the scheduler, referenced by its
parent job. -/
structure CTask where
  id : Nat
  robotId : Nat
  status : JobStatus
deriving DecidableEq

/-- Modelled from the spec: the JobController queues (§3). -/
structure JobQueues where
  pending : List Job
  active : List Job
  completed : List Job
  failed : List Job
  cancelled : List Job
deriving DecidableEq

/-- Errors of `addJob` (§4.6, §7). -/
inductive AddJobError
  | validationError
  | noDeliveryZone
deriving DecidableEq

/-- Modelled from the spec: `addJob(pickup, priority)` (§4.6) — validates that the
pickup lies within bounds before any mutation (`ValidationError` otherwise),
auto-selects the delivery as the nearest `delivery_zone` cell by path length
(`NoDeliveryZone` if the grid has none), and enqueues the Job in `pending`. -/
def addJob (env : GridEnv) (pickup : Int × Int) (priority : Nat) (nextId : Nat)
    (q : JobQueues) : Except AddJobError JobQueues :=
  if pickup.1 < 0 ∨ (env.width : Int) ≤ pickup.1 ∨
     pickup.2 < 0 ∨ (env.height : Int) ≤ pickup.2 then
    .error .validationError
  else
    match nearestZone env (pickup.1.toNat, pickup.2.toNat) env.deliveryZones with
    | none => .error .noDeliveryZone
    | some d =>
      .ok { q with pending := q.pending ++
              [{ id := nextId, pickup := (pickup.1.toNat, pickup.2.toNat),
                 delivery := d, priority := priority,
                 status := .pending, assignedRobotId := none, taskId := none }] }

/-- Errors of `cancelJob` (§4.6, §7): unknown id, or job not cancellable in its
state (the spec names this `InvalidState` in §4.6 and `UnavailableError` in §7/§8). -/
inductive CancelError
  | notFound
  | invalidState
deriving DecidableEq

/-- Modelled from the spec: the fleet state `cancelJob` touches — the job list, the
scheduler's tasks, and the robots. -/
structure CancelSystem where
  jobs : List Job
  tasks : List CTask
  robots : List BRobot
deriving DecidableEq

/-- Lookup of a job by id. -/
def findJob (s : CancelSystem) (jid : Nat) : Option Job :=
  s.jobs.find? fun j => j.id == jid

/-- Modelled from the spec: `cancelJob(jobId)` (§4.6) — allowed only while the job
is `pending` or `assigned`; the job becomes `cancelled`, and if a Task exists the
Task and its robot revert to `cancelled`/`idle` respectively.  Fails with
`InvalidState` (no state change) if the job is already completed/failed/cancelled. -/
def cancelJob (s : CancelSystem) (jid : Nat) : Except CancelError CancelSystem :=
  match s.jobs.find? (fun j => j.id == jid) with
  | none => .error .notFound
  | some j =>
    if j.status = .pending ∨ j.status = .assigned then
      let jobs' := s.jobs.map fun j2 =>
        if j2.id == jid then { j2 with status := .cancelled } else j2
      match j.taskId with
      | none => .ok { s with jobs := jobs' }
      | some tid =>
        match s.tasks.find? (fun t => t.id == tid) with
        | none => .ok { s with jobs := jobs' }
        | some t =>
          .ok { jobs := jobs'
                tasks := s.tasks.map fun t2 =>
                  if t2.id == tid then { t2 with status := .cancelled } else t2
                robots := s.robots.map fun r =>
                  if r.id == t.robotId then
                    { r with status := .idle, currentTask := none, path := [] }
                  else r }
    else .error .invalidState

/-! ## Continuous job generator configuration (§3, §4.6) -/

/-- Modelled from the spec: ContinuousConfig (§3) — enabled flag, maxJobs,
intervalSeconds. -/
structure ContinuousConfig where
  enabled : Bool
  maxJobs : Nat
  intervalSeconds : Nat
deriving DecidableEq

/-- Modelled from the spec: starting the continuous generator (§4.6) — enables it
and sets the parameters; starting while already enabled simply updates the
parameters (no failure, no restart). -/
def startContinuous (maxJobs intervalSeconds : Nat) (_s : ContinuousConfig) :
    ContinuousConfig :=
  { enabled := true, maxJobs := maxJobs, intervalSeconds := intervalSeconds }

/-- Modelled from the spec: stopping the continuous generator (§4.6) — disables it,
leaving the parameters and in-flight jobs untouched; idempotent. -/
def stopContinuous (s : ContinuousConfig) : ContinuousConfig :=
  { s with enabled := false }

/-! ## Fleet reset (§6) -/

/-- Modelled from the spec: the state the reset operation touches — robots, the
scheduler's active tasks, and the job queues. -/
structure SimSystem where
  robots : List BRobot
  activeTasks : List CTask
  jobs : JobQueues
deriving DecidableEq

/-- Modelled from the spec: reinitialize one robot in place (§3, §6) — idle, full
battery, position chosen from the legal (in-bounds, non-obstacle) cells by the
injectable random source, task and path cleared. -/
def resetRobot (env : GridEnv) (choice : Nat) (r : BRobot) : BRobot :=
  { r with status := .idle, battery := 100,
           pos := (legalCells env).getD (choice % (legalCells env).length) (0, 0),
           path := [], currentTask := none }

/-- Modelled from the spec: the reset-fleet operation (§6) — "reinitialize all
robots to idle/full battery/random legal position; clears active tasks, jobs keep
their queue state". -/
def resetFleet (env : GridEnv) (choice : Nat → Nat) (s : SimSystem) : SimSystem :=
  { robots := s.robots.map fun r => resetRobot env (choice r.id) r
    activeTasks := []
    jobs := s.jobs }

/-! ## Concrete environments used for scenario claims and witnesses -/

/-- The §8 scenario environment: a 10×10 grid whose only obstacles form a wall
occupying x=5 for y=0..9. -/
def env10 : GridEnv :=
  { width := 10, height := 10
    obstacles := (List.range 10).map fun y => (5, y)
    chargingStations := []
    pickupZones := []
    deliveryZones := [] }

/-- A small obstacle-free sample environment for witnesses. -/
def env3 : GridEnv :=
  { width := 3, height := 3
    obstacles := []
    chargingStations := [(0, 0)]
    pickupZones := [(0, 2)]
    deliveryZones := [(2, 2)] }

/-! ## Concrete fixtures for counterexamples and witnesses -/

/-- A 2×2 environment grid with one obstacle, used to probe `getCellType`. -/
def g1 : List (List CellType) :=
  [[.obstacle, .empty], [.empty, .empty]]

/-- An idle robot with battery 10: below the spec's low-battery threshold. -/
def rIdleLow : RobotView := { id := 1, status := "idle", battery := 10 }

/-- A delivering (busy) robot with battery 80. -/
def rBusy : RobotView := { id := 2, status := "delivering", battery := 80 }

/-- A returning robot with battery 50: eligible per the spec. -/
def rReturning : RobotView := { id := 3, status := "returning", battery := 50 }

/-- Empty job queues. -/
def emptyQueues : JobQueues :=
  { pending := [], active := [], completed := [], failed := [], cancelled := [] }

/-- A robot busy on a pickup task, used in the cancellation fixture. -/
def robotA : BRobot :=
  { id := 7, pos := (1, 1), battery := 60, status := .moving,
    path := [(1, 2)], currentTask := some .pickup }

/-- The task robotA is executing. -/
def taskA : CTask := { id := 4, robotId := 7, status := .assigned }

/-- An assigned job referencing taskA and robotA. -/
def jobA : Job :=
  { id := 9, pickup := (0, 2), delivery := (2, 2), priority := 5,
    status := .assigned, assignedRobotId := some 7, taskId := some 4 }

/-- A fleet state with one assigned job, its task, and its robot. -/
def sysA : CancelSystem := { jobs := [jobA], tasks := [taskA], robots := [robotA] }

/-- A simulation state with one robot and one active task, used for the reset
witness. -/
def simA : SimSystem :=
  { robots := [robotA], activeTasks := [taskA], jobs := emptyQueues }

/-- 4-connectivity of two grid cells: they differ by exactly one step in exactly
one coordinate. -/
def adjacentCell (p q : Nat × Nat) : Prop :=
  (p.1 = q.1 ∧ (p.2 + 1 = q.2 ∨ q.2 + 1 = p.2)) ∨
  (p.2 = q.2 ∧ (p.1 + 1 = q.1 ∨ q.1 + 1 = p.1))

/-- A valid robot walk per the PathPlanner contract (§4.2): every visited cell is
passable and consecutive cells are 4-connected. -/
def ValidWalk (env : GridEnv) (l : List (Nat × Nat)) : Prop :=
  (∀ c ∈ l, isPassable env c = true) ∧ l.Chain' adjacentCell

/-- A job already in a terminal state, for the cancellation error case. -/
def jobDone : Job :=
  { id := 11, pickup := (0, 2), delivery := (2, 2), priority := 5,
    status := .completed, assignedRobotId := none, taskId := none }

/-- A fleet state holding only the completed job. -/
def sysB : CancelSystem := { jobs := [jobDone], tasks := [], robots := [] }

/-! ## Theorems -/

/-- C10: FleetGrid's robot colouring is total with a fixed fallback — each of the
six listed statuses renders in its `STATUS_COLORS` entry, and every status absent
from the table (including 'dead') renders in the error colour '#ef4444'. -/
theorem fleetgrid_color_total :
    robotColor "moving" = "#10b981" ∧ robotColor "idle" = "#3b82f6" ∧
    robotColor "charging" = "#f59e0b" ∧ robotColor "delivering" = "#8b5cf6" ∧
    robotColor "returning" = "#06b6d4" ∧ robotColor "error" = "#ef4444" ∧
    robotColor "dead" = "#ef4444" ∧
    ∀ s, STATUS_COLORS.lookup s = none → robotColor s = "#ef4444" := by
  refine ⟨rfl, rfl, rfl, rfl, rfl, rfl, rfl, fun s h => ?_⟩
  simp [robotColor, h]

/-- Witness for C10: the fallback branch at the concrete status "dead". -/
theorem fleetgrid_color_total_w : robotColor "dead" = "#ef4444" :=
  fleetgrid_color_total.2.2.2.2.2.2.2 "dead" (by decide)

/-- One ControlPanel event preserves the configuration bounds. -/
theorem panelStep_inv (s : PanelState) (e : PanelEvent)
    (h1 : 10 ≤ s.gridSize) (h2 : s.gridSize ≤ 30)
    (h3 : 500 ≤ s.updateInterval) (h4 : s.updateInterval ≤ 10000) :
    10 ≤ (panelStep s e).gridSize ∧ (panelStep s e).gridSize ≤ 30 ∧
    500 ≤ (panelStep s e).updateInterval ∧ (panelStep s e).updateInterval ≤ 10000 := by
  cases e with
  | gridInput p =>
    cases p with
    | none => exact ⟨h1, h2, h3, h4⟩
    | some v =>
      simp only [panelStep, handleGridSizeChange]
      refine ⟨?_, ?_, h3, h4⟩ <;> split <;> omega
  | intervalInput p =>
    cases p with
    | none => exact ⟨h1, h2, h3, h4⟩
    | some v =>
      simp only [panelStep, handleIntervalChange]
      refine ⟨h1, h2, ?_, ?_⟩ <;> split <;> omega

/-- C9: the ControlPanel preserves its configuration bounds — a NaN or
out-of-range input leaves each setting unchanged, and starting in range, any
sequence of change events keeps gridSize in [10, 30] and updateInterval in
[500, 10000]. -/
theorem controlpanel_bounds_invariant :
    (∀ cur : Int, handleGridSizeChange none cur = cur) ∧
    (∀ v cur : Int, ¬ (10 ≤ v ∧ v ≤ 30) → handleGridSizeChange (some v) cur = cur) ∧
    (∀ cur : Int, handleIntervalChange none cur = cur) ∧
    (∀ v cur : Int, ¬ (500 ≤ v ∧ v ≤ 10000) → handleIntervalChange (some v) cur = cur) ∧
    (∀ (s : PanelState) (es : List PanelEvent),
      10 ≤ s.gridSize → s.gridSize ≤ 30 →
      500 ≤ s.updateInterval → s.updateInterval ≤ 10000 →
      10 ≤ (panelRun s es).gridSize ∧ (panelRun s es).gridSize ≤ 30 ∧
      500 ≤ (panelRun s es).updateInterval ∧ (panelRun s es).updateInterval ≤ 10000) := by
  refine ⟨fun _ => rfl, fun v cur h => by simp [handleGridSizeChange, h],
          fun _ => rfl, fun v cur h => by simp [handleIntervalChange, h],
          fun s es => ?_⟩
  induction es generalizing s with
  | nil => intro h1 h2 h3 h4; exact ⟨h1, h2, h3, h4⟩
  | cons e es ih =>
    intro h1 h2 h3 h4
    obtain ⟨k1, k2, k3, k4⟩ := panelStep_inv s e h1 h2 h3 h4
    exact ih (panelStep s e) k1 k2 k3 k4

/-- Witness for C9: a concrete in-range start state, an out-of-range grid input
and a NaN interval input leave it unchanged and in range. -/
theorem controlpanel_bounds_invariant_w :
    10 ≤ (panelRun ⟨20, 2000⟩ [.gridInput (some 50), .intervalInput none]).gridSize ∧
    (panelRun ⟨20, 2000⟩ [.gridInput (some 50), .intervalInput none]).gridSize ≤ 30 ∧
    500 ≤ (panelRun ⟨20, 2000⟩ [.gridInput (some 50), .intervalInput none]).updateInterval ∧
    (panelRun ⟨20, 2000⟩ [.gridInput (some 50), .intervalInput none]).updateInterval ≤ 10000 :=
  controlpanel_bounds_invariant.2.2.2.2 ⟨20, 2000⟩
    [.gridInput (some 50), .intervalInput none]
    (by decide) (by decide) (by decide) (by decide)

/-- Unfolding equation for `getCellType` on a present grid. -/
theorem getCellType_some_eq (g : List (List CellType)) (x y : Int) :
    getCellType (some g) x y =
      (if (g.length : Int) ≤ y then .val .empty
       else if y < 0 then .crash
       else if ((g.getD y.toNat []).length : Int) ≤ x then .val .empty
       else if x < 0 then .undef
       else .val ((g.getD y.toNat []).getD x.toNat .empty)) := rfl

/-- C8 counterexample: `getCellType` is not total over all coordinates — on the
concrete grid `g1`, a negative `y` throws a TypeError (accessing
`grid[-1].length`), and a negative `x` within a valid row yields `undefined`,
neither of which is a cell-type value. -/
theorem getCellType_not_total_negative :
    getCellType (some g1) 0 (-1) = .crash ∧
    getCellType (some g1) (-1) 0 = .undef := by
  exact ⟨rfl, rfl⟩

/-- C8 (amended): for every non-negative coordinate — in particular every index
the renderer passes — `getCellType` returns a cell-type value, returning 'empty'
whenever the grid is missing or the index is out of range. -/
theorem getCellType_total_nonneg (grid : Option (List (List CellType))) (x y : Int)
    (hx : 0 ≤ x) (hy : 0 ≤ y) :
    (∃ c, getCellType grid x y = .val c) ∧
    (grid = none → getCellType grid x y = .val .empty) ∧
    (∀ g, grid = some g → (g.length : Int) ≤ y → getCellType grid x y = .val .empty) ∧
    (∀ g, grid = some g → y < (g.length : Int) →
      ((g.getD y.toNat []).length : Int) ≤ x → getCellType grid x y = .val .empty) := by
  cases grid with
  | none =>
    refine ⟨⟨.empty, rfl⟩, fun _ => rfl, ?_, ?_⟩
    · intro g h; cases h
    · intro g h; cases h
  | some g =>
    have hy0 : ¬ y < 0 := by omega
    have hx0 : ¬ x < 0 := by omega
    simp only [getCellType_some_eq]
    by_cases h1 : (g.length : Int) ≤ y
    · simp only [if_pos h1]
      refine ⟨⟨.empty, rfl⟩, ?_, ?_, ?_⟩
      · intro h; cases h
      · intro g2 hg2 _; trivial
      · intro g2 hg2 hlt _; cases hg2; omega
    · simp only [if_neg h1, if_neg hy0]
      by_cases h2 : ((g.getD y.toNat []).length : Int) ≤ x
      · simp only [if_pos h2]
        refine ⟨⟨.empty, rfl⟩, ?_, ?_, ?_⟩
        · intro h; cases h
        · intro g2 hg2 hge; cases hg2; omega
        · intro g2 hg2 _ _; trivial
      · simp only [if_neg h2, if_neg hx0]
        refine ⟨⟨(g.getD y.toNat []).getD x.toNat .empty, rfl⟩, ?_, ?_, ?_⟩
        · intro h; cases h
        · intro g2 hg2 hge; cases hg2; omega
        · intro g2 hg2 _ hge; cases hg2; omega

/-- Witness for C8 (amended): the concrete out-of-range lookup (5, 0) on `g1`
yields the 'empty' cell type. -/
theorem getCellType_total_nonneg_w :
    getCellType (some g1) 5 0 = .val .empty :=
  (getCellType_total_nonneg (some g1) 5 0 (by decide) (by decide)).2.2.2
    g1 rfl (by decide) (by decide)

/-- C1 counterexample: the dropdown's `availableRobots` filter does not equal the
spec's eligible set — an idle robot at battery 10 (below the low threshold) and a
busy delivering robot at battery 80 are both offered although neither is
eligible. -/
theorem availableRobots_ne_eligible :
    availPred rIdleLow = true ∧ specEligible rIdleLow = false ∧
    availPred rBusy = true ∧ specEligible rBusy = false ∧
    ¬ (availPred rIdleLow = true ↔ specEligible rIdleLow = true) ∧
    availableRobots [rIdleLow, rBusy] = [rIdleLow, rBusy] := by
  refine ⟨rfl, rfl, rfl, rfl, ?_, rfl⟩
  intro h
  exact absurd (h.mp rfl) (by decide)

/-- C1 (amended): the `availableRobots` filter strictly contains the spec's
eligible set — every eligible robot (idle or returning, battery above the low
threshold) is offered for assignment; the converse fails by the counterexample. -/
theorem availableRobots_superset_of_eligible (rs : List RobotView) (r : RobotView)
    (hr : r ∈ rs) (h : specEligible r = true) : r ∈ availableRobots rs := by
  refine List.mem_filter.2 ⟨hr, ?_⟩
  simp only [specEligible, Bool.and_eq_true, Bool.or_eq_true, beq_iff_eq,
    decide_eq_true_eq] at h
  obtain ⟨hs, hb⟩ := h
  simp only [availPred, Bool.or_eq_true, Bool.and_eq_true, beq_iff_eq,
    bne_iff_ne, decide_eq_true_eq]
  rcases hs with h1 | h2
  · exact Or.inl h1
  · exact Or.inr ⟨by rw [h2]; decide, hb⟩

/-- Witness for C1 (amended): the concrete returning robot at battery 50 is
eligible and indeed appears among the available robots. -/
theorem availableRobots_superset_of_eligible_w :
    rReturning ∈ availableRobots [rIdleLow, rReturning] :=
  availableRobots_superset_of_eligible [rIdleLow, rReturning] rReturning
    (by simp) (by decide)

/-- C4: starting the continuous generator while already enabled updates maxJobs
and intervalSeconds without failing; stopping is idempotent and is a no-op when
already stopped; and the UI toggle only ever issues stop when enabled and start
when disabled, with the parameter inputs disabled while enabled. -/
theorem continuous_start_stop (s : ContinuousConfig) (m i : Nat)
    (_henabled : s.enabled = true) :
    (startContinuous m i s).enabled = true ∧
    (startContinuous m i s).maxJobs = m ∧
    (startContinuous m i s).intervalSeconds = i ∧
    (∀ s2 : ContinuousConfig, s2.enabled = false → stopContinuous s2 = s2) ∧
    (∀ s2 : ContinuousConfig, stopContinuous (stopContinuous s2) = stopContinuous s2) ∧
    (∀ (st : ContinuousStatusView) (cm ci : Nat),
      (handleToggleContinuous st cm ci = .stopReq ↔ st.enabled = true) ∧
      (∀ m2 i2, handleToggleContinuous st cm ci = .startReq m2 i2 → st.enabled = false) ∧
      continuousInputsDisabled st = st.enabled) := by
  refine ⟨rfl, rfl, rfl, ?_, ?_, ?_⟩
  · intro s2 h2
    cases s2 with
    | mk e mj is => cases h2; rfl
  · intro s2; rfl
  · intro st cm ci
    refine ⟨?_, ?_, rfl⟩
    · unfold handleToggleContinuous
      constructor
      · intro h
        by_cases he : st.enabled
        · exact he
        · simp [he] at h
      · intro h; simp [h]
    · intro m2 i2 h
      unfold handleToggleContinuous at h
      by_cases he : st.enabled
      · simp [he] at h
      · simpa using he

/-- Witness for C4: starting while enabled at a concrete state updates the
parameters. -/
theorem continuous_start_stop_w :
    (startContinuous 7 9 ⟨true, 3, 5⟩).enabled = true ∧
    (startContinuous 7 9 ⟨true, 3, 5⟩).maxJobs = 7 ∧
    (startContinuous 7 9 ⟨true, 3, 5⟩).intervalSeconds = 9 :=
  let h := continuous_start_stop ⟨true, 3, 5⟩ 7 9 rfl
  ⟨h.1, h.2.1, h.2.2.1⟩

/-- Every legal cell is passable. -/
theorem legalCells_passable (env : GridEnv) (p : Nat × Nat)
    (hp : p ∈ legalCells env) : isPassable env p = true := by
  unfold legalCells at hp
  rw [List.mem_flatMap] at hp
  obtain ⟨x, -, hx⟩ := hp
  rw [List.mem_filterMap] at hx
  obtain ⟨y, -, hy⟩ := hx
  by_cases h : isPassable env (x, y)
  · rw [if_pos h] at hy
    cases hy
    exact h
  · rw [if_neg h] at hy
    cases hy

/-- The position every reset/init robot receives is a legal cell, provided one
exists. -/
theorem initPos_mem_legal (env : GridEnv) (choice : Nat)
    (hne : legalCells env ≠ []) :
    (legalCells env).getD (choice % (legalCells env).length) (0, 0) ∈
      legalCells env := by
  have hlen : 0 < (legalCells env).length := List.length_pos.2 hne
  have hlt : choice % (legalCells env).length < (legalCells env).length :=
    Nat.mod_lt _ hlen
  rw [List.getD_eq_getElem _ _ hlt]
  exact List.getElem_mem hlt

/-- C6: after the reset-fleet operation every robot is idle with battery 100 at a
position that is within grid bounds and not on an obstacle cell, its task and path
are cleared, all active tasks are cleared, and the job queues are unchanged. -/
theorem resetFleet_post (env : GridEnv) (choice : Nat → Nat) (s : SimSystem)
    (hne : legalCells env ≠ []) :
    (∀ r ∈ (resetFleet env choice s).robots,
      r.status = .idle ∧ r.battery = 100 ∧
      inBounds env r.pos = true ∧ env.obstacles.contains r.pos = false ∧
      r.currentTask = none ∧ r.path = []) ∧
    (resetFleet env choice s).activeTasks = [] ∧
    (resetFleet env choice s).jobs = s.jobs := by
  refine ⟨?_, rfl, rfl⟩
  intro r hr
  simp only [resetFleet, List.mem_map] at hr
  obtain ⟨r0, -, hr0⟩ := hr
  subst hr0
  simp only [resetRobot]
  have hmem := initPos_mem_legal env (choice r0.id) hne
  have hpass := legalCells_passable env _ hmem
  unfold isPassable at hpass
  rw [Bool.and_eq_true] at hpass
  refine ⟨trivial, trivial, hpass.1, ?_, trivial, trivial⟩
  have := hpass.2
  cases h : env.obstacles.contains
      ((legalCells env).getD (choice r0.id % (legalCells env).length) (0, 0)) with
  | false => rfl
  | true => rw [h] at this; cases this

/-- Witness for C6: resetting the concrete one-robot system on `env3` yields an
idle, fully charged, legally placed robot, clears the active tasks, and keeps the
job queues. -/
theorem resetFleet_post_w :
    (∀ r ∈ (resetFleet env3 (fun _ => 0) simA).robots,
      r.status = .idle ∧ r.battery = 100 ∧
      inBounds env3 r.pos = true ∧ env3.obstacles.contains r.pos = false ∧
      r.currentTask = none ∧ r.path = []) ∧
    (resetFleet env3 (fun _ => 0) simA).activeTasks = [] ∧
    (resetFleet env3 (fun _ => 0) simA).jobs = simA.jobs :=
  resetFleet_post env3 (fun _ => 0) simA (by decide)

/-- C5: `addJob` validates the pickup coordinate before any mutation — any pickup
with x or y outside [0, gridSize-1] is rejected with `ValidationError` and no job
is created; an in-bounds pickup enqueues a pending Job whose delivery is a
path-length-nearest delivery-zone cell, failing with `NoDeliveryZone` exactly when
the grid has no delivery zone; and the frontend's own bounds check already drops
out-of-bounds requests before the API call. -/
theorem addJob_spec :
    (∀ (env : GridEnv) (pickup : Int × Int) (prio nextId : Nat) (q : JobQueues),
      (pickup.1 < 0 ∨ (env.width : Int) ≤ pickup.1 ∨
       pickup.2 < 0 ∨ (env.height : Int) ≤ pickup.2) →
      addJob env pickup prio nextId q = .error .validationError) ∧
    (∀ (env : GridEnv) (pickup : Int × Int) (prio nextId : Nat) (q : JobQueues),
      ¬ (pickup.1 < 0 ∨ (env.width : Int) ≤ pickup.1 ∨
         pickup.2 < 0 ∨ (env.height : Int) ≤ pickup.2) →
      env.deliveryZones = [] →
      addJob env pickup prio nextId q = .error .noDeliveryZone) ∧
    (∀ (env : GridEnv) (pickup : Int × Int) (prio nextId : Nat) (q : JobQueues),
      ¬ (pickup.1 < 0 ∨ (env.width : Int) ≤ pickup.1 ∨
         pickup.2 < 0 ∨ (env.height : Int) ≤ pickup.2) →
      env.deliveryZones ≠ [] →
      ∃ d, d ∈ env.deliveryZones ∧
        (∀ z ∈ env.deliveryZones,
          distTop (bfsDist env (pickup.1.toNat, pickup.2.toNat) d) ≤
          distTop (bfsDist env (pickup.1.toNat, pickup.2.toNat) z)) ∧
        addJob env pickup prio nextId q = .ok
          { q with pending := q.pending ++
              [{ id := nextId, pickup := (pickup.1.toNat, pickup.2.toNat),
                 delivery := d, priority := prio, status := .pending,
                 assignedRobotId := none, taskId := none }] }) ∧
    (∀ (gridSize px py : Int) (prio : Nat),
      (px < 0 ∨ gridSize ≤ px ∨ py < 0 ∨ gridSize ≤ py) →
      frontendAddJob gridSize px py prio = none) := by
  refine ⟨?_, ?_, ?_, ?_⟩
  · intro env pickup prio nextId q h
    unfold addJob
    rw [if_pos h]
  · intro env pickup prio nextId q h hz
    unfold addJob
    rw [if_neg h]
    have : nearestZone env (pickup.1.toNat, pickup.2.toNat) env.deliveryZones = none := by
      unfold nearestZone
      rw [hz]
      exact List.argmin_nil _
    rw [this]
  · intro env pickup prio nextId q h hz
    set p : Nat × Nat := (pickup.1.toNat, pickup.2.toNat) with hp
    cases hn : nearestZone env p env.deliveryZones with
    | none =>
      exfalso
      apply hz
      unfold nearestZone at hn
      exact List.argmin_eq_none.mp hn
    | some d =>
      have hn2 : d ∈ List.argmin (fun z => distTop (bfsDist env p z))
          env.deliveryZones := by
        unfold nearestZone at hn
        exact hn
      have hdmem : d ∈ env.deliveryZones := List.argmin_mem hn2
      refine ⟨d, hdmem, ?_, ?_⟩
      · intro z hzmem
        simpa using List.le_of_mem_argmin hzmem hn2
      · unfold addJob
        rw [if_neg h]
        simp only [← hp, hn]
  · intro gridSize px py prio h
    unfold frontendAddJob
    rw [if_pos h]

/-- Witness for C5: on `env3`, an out-of-bounds pickup (-1, 0) is rejected, the
in-bounds pickup (0, 2) is enqueued pending with the unique delivery zone (2, 2)
as delivery, and the frontend check drops the out-of-bounds request. -/
theorem addJob_spec_w :
    addJob env3 (-1, 0) 5 0 emptyQueues = .error .validationError ∧
    (∃ d, d ∈ env3.deliveryZones ∧
      (∀ z ∈ env3.deliveryZones,
        distTop (bfsDist env3 ((0 : Int).toNat, (2 : Int).toNat) d) ≤
        distTop (bfsDist env3 ((0 : Int).toNat, (2 : Int).toNat) z)) ∧
      addJob env3 (0, 2) 5 0 emptyQueues = .ok
        { emptyQueues with pending := emptyQueues.pending ++
            [{ id := 0, pickup := ((0 : Int).toNat, (2 : Int).toNat),
               delivery := d, priority := 5, status := .pending,
               assignedRobotId := none, taskId := none }] }) ∧
    frontendAddJob 20 25 0 5 = none :=
  ⟨addJob_spec.1 env3 (-1, 0) 5 0 emptyQueues (by decide),
   addJob_spec.2.2.1 env3 (0, 2) 5 0 emptyQueues (by decide) (by decide),
   addJob_spec.2.2.2 20 25 0 5 (by decide)⟩

/-- Updating exactly the keyed element of a list commutes with looking it up,
whenever the update preserves the key. -/
theorem find_map_update {α : Type} (f : α → Nat) (l : List α) (k : Nat)
    (upd : α → α) (hid : ∀ a, f (upd a) = f a) :
    (l.map fun a => if f a == k then upd a else a).find? (fun a => f a == k) =
      (l.find? fun a => f a == k).map fun a => if f a == k then upd a else a := by
  induction l with
  | nil => rfl
  | cons a t ih =>
    by_cases hfk : f a = k
    · have hb : (f a == k) = true := by simpa using hfk
      have hb2 : (f (upd a) == k) = true := by rw [hid]; exact hb
      rw [List.map_cons, if_pos hb]
      simp only [List.find?_cons, hb2, hb]
      simp [hfk]
    · have hb : ¬ (f a == k) = true := by simp [hfk]
      have hb2 : (f a == k) = false := by simpa using hb
      rw [List.map_cons, if_neg hb]
      simp only [List.find?_cons, hb2]
      exact ih

/-- A successful cancellation marks the cancelled job as `cancelled` in the
resulting state. -/
theorem cancelJob_ok_job (s : CancelSystem) (jid : Nat) (j : Job) (s2 : CancelSystem)
    (hj : s.jobs.find? (fun j2 => j2.id == jid) = some j)
    (hok : cancelJob s jid = .ok s2) :
    s2.jobs.find? (fun j2 => j2.id == jid) = some { j with status := .cancelled } := by
  have hjd : (j.id == jid) = true := by simpa using List.find?_some hj
  simp only [cancelJob, hj] at hok
  by_cases hps : j.status = .pending ∨ j.status = .assigned
  · rw [if_pos hps] at hok
    have hjobs : s2.jobs = s.jobs.map fun j2 =>
        if j2.id == jid then { j2 with status := JobStatus.cancelled } else j2 := by
      cases htid : j.taskId with
      | none =>
        rw [htid] at hok
        injection hok with h
        subst h
        rfl
      | some tid =>
        rw [htid] at hok
        dsimp only at hok
        cases hft : s.tasks.find? (fun t2 => t2.id == tid) with
        | none =>
          rw [hft] at hok
          injection hok with h
          subst h
          rfl
        | some t =>
          rw [hft] at hok
          injection hok with h
          subst h
          rfl
    rw [hjobs, find_map_update Job.id s.jobs jid
      (fun j2 => { j2 with status := JobStatus.cancelled }) (fun _ => rfl), hj]
    simp [hjd]
    intro hne
    exact absurd (by simpa using hjd) hne
  · rw [if_neg hps] at hok
    cases hok

/-- C3: `cancelJob` succeeds exactly when the job is `pending` or `assigned`
(cancelling the job and reverting its Task and the Task's robot to
cancelled/idle); on an already terminal job it fails with the invalid-state error
and produces no new state, so a second cancellation of the same job errors; and
the UI only offers cancellation for pending jobs. -/
theorem cancelJob_spec :
    (∀ (s : CancelSystem) (jid : Nat) (j : Job), findJob s jid = some j →
      ((j.status = .pending ∨ j.status = .assigned) ↔ (cancelJob s jid).isOk = true)) ∧
    (∀ (s : CancelSystem) (jid : Nat) (j : Job), findJob s jid = some j →
      (j.status = .completed ∨ j.status = .failed ∨ j.status = .cancelled) →
      cancelJob s jid = .error .invalidState) ∧
    (∀ (s : CancelSystem) (jid : Nat) (j : Job) (s2 : CancelSystem),
      findJob s jid = some j → cancelJob s jid = .ok s2 →
      findJob s2 jid = some { j with status := .cancelled } ∧
      (∀ tid t, j.taskId = some tid →
        s.tasks.find? (fun t2 => t2.id == tid) = some t →
        s2.tasks.find? (fun t2 => t2.id == tid) = some { t with status := .cancelled } ∧
        s2.robots.find? (fun r => r.id == t.robotId) =
          (s.robots.find? fun r => r.id == t.robotId).map
            fun r => { r with status := .idle, currentTask := none, path := [] })) ∧
    (∀ (s : CancelSystem) (jid : Nat) (s2 : CancelSystem),
      cancelJob s jid = .ok s2 → cancelJob s2 jid = .error .invalidState) ∧
    (∀ st : String, uiOffersCancel st = true ↔ st = "pending") := by
  refine ⟨?_, ?_, ?_, ?_, ?_⟩
  · intro s jid j hj
    unfold findJob at hj
    simp only [cancelJob, hj]
    constructor
    · intro hps
      rw [if_pos hps]
      cases htid : j.taskId with
      | none => rfl
      | some tid =>
        dsimp only
        cases hft : s.tasks.find? (fun t2 => t2.id == tid) with
        | none => dsimp only [hft]; rfl
        | some t => dsimp only [hft]; rfl
    · intro hok
      by_contra hps
      rw [if_neg hps] at hok
      simp [Except.isOk, Except.toBool] at hok
  · intro s jid j hj hterm
    unfold findJob at hj
    have hnp : ¬ (j.status = .pending ∨ j.status = .assigned) := by
      rcases hterm with h | h | h <;> rw [h] <;> decide
    simp only [cancelJob, hj]
    rw [if_neg hnp]
  · intro s jid j s2 hj hok
    unfold findJob at hj
    refine ⟨cancelJob_ok_job s jid j s2 hj hok, ?_⟩
    intro tid t hts hft
    have hjd : (j.id == jid) = true := by simpa using List.find?_some hj
    have htd : (t.id == tid) = true := by simpa using List.find?_some hft
    simp only [cancelJob, hj] at hok
    by_cases hps : j.status = .pending ∨ j.status = .assigned
    · rw [if_pos hps, hts] at hok
      dsimp only at hok
      rw [hft] at hok
      injection hok with h
      subst h
      constructor
      · show (s.tasks.map _).find? _ = _
        rw [find_map_update CTask.id s.tasks tid
          (fun t2 => { t2 with status := JobStatus.cancelled }) (fun _ => rfl), hft]
        simp [htd]
        intro hne
        exact absurd (by simpa using htd) hne
      · show (s.robots.map _).find? _ = _
        rw [find_map_update BRobot.id s.robots t.robotId
          (fun r => { r with status := RStatus.idle, currentTask := none, path := [] })
          (fun _ => rfl)]
        cases hfr : s.robots.find? (fun r => r.id == t.robotId) with
        | none => rfl
        | some r0 =>
          have hrd : (r0.id == t.robotId) = true := by simpa using List.find?_some hfr
          simp [hrd]
          intro hne
          exact absurd (by simpa using hrd) hne
    · rw [if_neg hps] at hok
      cases hok
  · intro s jid s2 hok
    cases hfj : s.jobs.find? (fun j2 => j2.id == jid) with
    | none =>
      simp only [cancelJob, hfj] at hok
      cases hok
    | some j =>
      have h2 := cancelJob_ok_job s jid j s2 hfj hok
      simp only [cancelJob, h2]
      rw [if_neg (by decide)]
  · intro st
    constructor
    · intro h
      exact eq_of_beq h
    · intro h
      rw [h]
      rfl

/-- Witness for C3: on the concrete fixture, the assigned job 9 is cancellable and
cancelling it reverts task 4 and robot 7; the completed job 11 is not cancellable;
and a second cancellation of job 9 errors. -/
theorem cancelJob_spec_w :
    ((jobA.status = .pending ∨ jobA.status = .assigned) ↔
      (cancelJob sysA 9).isOk = true) ∧
    cancelJob sysB 11 = .error .invalidState ∧
    (∀ (s2 : CancelSystem), cancelJob sysA 9 = .ok s2 →
      cancelJob s2 9 = .error .invalidState) ∧
    uiOffersCancel "pending" = true :=
  ⟨cancelJob_spec.1 sysA 9 jobA (by decide),
   cancelJob_spec.2.1 sysB 11 jobDone (by decide) (Or.inl rfl),
   fun s2 hok => cancelJob_spec.2.2.2.1 sysA 9 s2 hok,
   (cancelJob_spec.2.2.2.2 "pending").mpr rfl⟩

/-- Arrival transitions never change the battery. -/
theorem arrive_battery (r : BRobot) : (arrive r).battery = r.battery := by
  obtain ⟨rid, pos, bat, st, path, task⟩ := r
  cases task with
  | none =>
    simp only [arrive]
    split <;> rfl
  | some k => cases k <;> rfl

/-- Arrival transitions never produce a dead robot. -/
theorem arrive_ne_dead (r : BRobot) : (arrive r).status ≠ .dead := by
  obtain ⟨rid, pos, bat, st, path, task⟩ := r
  cases task with
  | none =>
    simp only [arrive]
    split <;> simp
  | some k => cases k <;> simp [arrive]

/-- A dead robot is untouched by the simulation tick. -/
theorem tickR_dead (env : GridEnv) (r : BRobot) (hd : r.status = .dead) :
    tickR env r = r := by
  obtain ⟨rid, pos, bat, st, path, task⟩ := r
  cases st <;> first | rfl | exact absurd hd (by simp)

/-- A dead robot never accepts a task: assignment always fails as unavailable. -/
theorem assignToRobot_dead (env : GridEnv) (r : BRobot) (k : TaskKind)
    (tgt : Nat × Nat) (hd : r.status = .dead) :
    assignToRobot env r k tgt = .error .robotUnavailable := by
  unfold assignToRobot
  rw [if_pos (Or.inl hd)]

/-- One tick preserves the battery-range and dead-iff-zero invariant. -/
theorem tickR_inv (env : GridEnv) (r : BRobot)
    (h1 : r.battery ≤ 100) (h2 : r.status = .dead ↔ r.battery = 0) :
    (tickR env r).battery ≤ 100 ∧
    ((tickR env r).status = .dead ↔ (tickR env r).battery = 0) := by
  obtain ⟨rid, pos, bat, st, path, task⟩ := r
  cases st
  case dead => exact ⟨h1, h2⟩
  case idle => exact ⟨h1, h2⟩
  case error => exact ⟨h1, h2⟩
  case charging =>
    have hb0 : 0 < min 100 (bat + batteryChargePerTick) :=
      lt_min (by norm_num) (by unfold batteryChargePerTick; omega)
    simp only [tickR]
    split
    · exact ⟨min_le_left _ _,
        ⟨fun h => by simp at h, fun h => absurd h (Nat.pos_iff_ne_zero.mp hb0)⟩⟩
    · exact ⟨min_le_left _ _,
        ⟨fun h => by simp at h, fun h => absurd h (Nat.pos_iff_ne_zero.mp hb0)⟩⟩
  all_goals {
    have hb0 : bat ≠ 0 := fun h => absurd (h2.mpr h) (by simp)
    simp only [tickR]
    split
    · exact ⟨h1, ⟨fun h => by simp at h, fun h => absurd h hb0⟩⟩
    · split
      next hb =>
        exact ⟨Nat.zero_le _, ⟨fun _ => rfl, fun _ => rfl⟩⟩
      next hb =>
        split
        next hpath =>
          rw [arrive_battery]
          exact ⟨le_trans (Nat.sub_le _ _) h1,
            ⟨fun h => absurd h (arrive_ne_dead _), fun h => absurd h hb⟩⟩
        next hpath =>
          exact ⟨le_trans (Nat.sub_le _ _) h1,
            ⟨fun h => by simp at h, fun h => absurd h hb⟩⟩ }

/-- Successful assignment preserves the battery-range and dead-iff-zero
invariant. -/
theorem assignToRobot_inv (env : GridEnv) (r r' : BRobot) (k : TaskKind)
    (tgt : Nat × Nat) (h1 : r.battery ≤ 100)
    (h2 : r.status = .dead ↔ r.battery = 0)
    (hok : assignToRobot env r k tgt = .ok r') :
    r'.battery ≤ 100 ∧ (r'.status = .dead ↔ r'.battery = 0) := by
  unfold assignToRobot at hok
  split at hok
  · cases hok
  next hguard =>
    have hnd : ¬ r.status = .dead := fun h => hguard (Or.inl h)
    split at hok
    · cases hok
    · split at hok
      · cases hok
      next p hp =>
        injection hok with h
        subst h
        exact ⟨h1, ⟨fun h => by simp at h,
          fun hb => absurd (h2.mpr hb) hnd⟩⟩

/-- A freshly initialized or reset robot satisfies the invariant. -/
theorem initRobot_inv (env : GridEnv) (rid c : Nat) :
    (initRobot env rid c).battery ≤ 100 ∧
    ((initRobot env rid c).status = .dead ↔ (initRobot env rid c).battery = 0) :=
  ⟨Nat.le_refl 100, by simp [initRobot]⟩

/-- C2: at every reachable state of the simulation a robot's battery lies in
[0, 100] and it is dead exactly when the battery is 0; moreover a dead robot is
never changed by a tick, never accepts a task (assignment fails as unavailable),
and no scheduler step changes it at all. -/
theorem robot_battery_dead_invariant (env : GridEnv) (r : BRobot)
    (h : ReachableR env r) :
    (r.battery ≤ 100 ∧ (r.status = .dead ↔ r.battery = 0)) ∧
    (r.status = .dead → tickR env r = r) ∧
    (r.status = .dead → ∀ (k : TaskKind) (tgt : Nat × Nat),
      assignToRobot env r k tgt = .error .robotUnavailable) ∧
    (r.status = .dead → ∀ r2, RStep env r r2 → r2 = r) := by
  have main : r.battery ≤ 100 ∧ (r.status = .dead ↔ r.battery = 0) := by
    induction h with
    | init rid c => exact initRobot_inv env rid c
    | step r0 r1 hr0 hstep ih =>
      cases hstep with
      | tick => exact tickR_inv env r0 ih.1 ih.2
      | assign a k tgt hok => exact assignToRobot_inv env r0 r1 k tgt ih.1 ih.2 hok
  refine ⟨main, fun hd => tickR_dead env r hd,
    fun hd k tgt => assignToRobot_dead env r k tgt hd,
    fun hd r2 hstep => ?_⟩
  cases hstep with
  | tick => exact tickR_dead env r hd
  | assign a k tgt hok =>
    rw [assignToRobot_dead env r k tgt hd] at hok
    cases hok

/-- Witness for C2: the invariant at the concrete initial robot on `env3`. -/
theorem robot_battery_dead_invariant_w :
    (initRobot env3 0 0).battery ≤ 100 ∧
    ((initRobot env3 0 0).status = .dead ↔ (initRobot env3 0 0).battery = 0) :=
  (robot_battery_dead_invariant env3 (initRobot env3 0 0) (ReachableR.init 0 0)).1

/-- Discrete intermediate-value property of 4-connected walks: the x-coordinate
changes by at most one per step, so a walk starting at x ≤ n and ending at x ≥ n
visits some cell with x = n. -/
theorem walk_crosses (n : Nat) (l : List (Nat × Nat)) :
    l.Chain' adjacentCell → ∀ a b, l.head? = some a → l.getLast? = some b →
      a.1 ≤ n → n ≤ b.1 → ∃ c ∈ l, c.1 = n := by
  induction l with
  | nil =>
    intro _ a b h
    cases h
  | cons a0 tl ih =>
    intro hch a b ha hb han hnb
    rw [List.head?_cons] at ha
    injection ha with ha0
    subst ha0
    cases tl with
    | nil =>
      rw [List.getLast?_singleton] at hb
      injection hb with hb0
      subst hb0
      exact ⟨a0, List.mem_singleton_self a0, by omega⟩
    | cons a1 t =>
      rw [List.getLast?_cons_cons] at hb
      rw [List.chain'_cons] at hch
      obtain ⟨hadj, hch2⟩ := hch
      by_cases he : a0.1 = n
      · exact ⟨a0, List.mem_cons_self _ _, he⟩
      · have h1 : a1.1 ≤ n := by
          rcases hadj with ⟨hx, -⟩ | ⟨-, hx | hx⟩ <;> omega
        obtain ⟨c, hc, hcn⟩ := ih hch2 a1 b rfl hb h1 hnb
        exact ⟨c, List.mem_cons_of_mem _ hc, hcn⟩

/-- No obstacle-avoiding 4-connected walk on the §8 scenario grid can start at
(0,0) and end right of the wall: the wall at x=5 spans the full height. -/
theorem validWalk_right_blocked (l : List (Nat × Nat)) (h : ValidWalk env10 l)
    (hh : l.head? = some (0, 0)) (b : Nat × Nat) (hb : l.getLast? = some b) :
    b.1 < 5 := by
  by_contra hge
  push_neg at hge
  obtain ⟨hpass, hch⟩ := h
  obtain ⟨c, hc, hcx⟩ := walk_crosses 5 l hch (0, 0) b hh hb (by norm_num) hge
  obtain ⟨cx, cy⟩ := c
  dsimp only at hcx
  subst hcx
  have hp := hpass _ hc
  unfold isPassable inBounds at hp
  simp only [Bool.and_eq_true, decide_eq_true_eq, Bool.not_eq_true'] at hp
  obtain ⟨⟨hx10, hy10⟩, hnob⟩ := hp
  have hmem : ((5 : Nat), cy) ∈ env10.obstacles := by
    show _ ∈ (List.range 10).map fun y => ((5 : Nat), y)
    rw [List.mem_map]
    exact ⟨cy, List.mem_range.mpr hy10, rfl⟩
  have h2 : env10.obstacles.contains (5, cy) = true :=
    List.elem_eq_true_of_mem hmem
  rw [hnob] at h2
  cases h2

/-- C7 counterexample: on the 10×10 grid whose wall occupies x=5 for y=0..9, the
target (9,5) is just as unreachable as (9,0) — `findPath` returns `NoPathFound`,
not a length-13 path. -/
theorem findPath_no_13_path :
    ¬ ∃ p, findPath env10 (0, 0) (9, 5) = some p ∧ p.length = 13 := by
  rintro ⟨p, hp, -⟩
  rw [(by decide : findPath env10 (0, 0) (9, 5) = none)] at hp
  cases hp

/-- C7 (amended): on the §8 scenario grid both targets are cut off — `findPath`
from (0,0) returns `NoPathFound` for (9,0) and for (9,5); indeed every valid
obstacle-avoiding 4-connected walk starting at (0,0) ends strictly left of the
wall, so no detour of any length exists. -/
theorem findPath_wall_scenario :
    findPath env10 (0, 0) (9, 0) = none ∧
    findPath env10 (0, 0) (9, 5) = none ∧
    (∀ (l : List (Nat × Nat)) (b : Nat × Nat),
      ValidWalk env10 l → l.head? = some (0, 0) → l.getLast? = some b →
      b.1 < 5) :=
  ⟨by decide, by decide, fun l b h hh hb => validWalk_right_blocked l h hh b hb⟩

/-- Witness for C7 (amended): the trivial one-cell walk at (0,0) indeed ends left
of the wall. -/
theorem findPath_wall_scenario_w : ((0, 0) : Nat × Nat).1 < 5 :=
  findPath_wall_scenario.2.2 [(0, 0)] (0, 0)
    ⟨by
      intro c hc
      rw [List.mem_singleton] at hc
      subst hc
      decide,
     List.chain'_singleton _⟩ rfl rfl
